import Mathlib

/-!
Verification of the `cbf` obstacle module (`src/cbf/obstacles/obstacles.py`).

The file shallowly embeds the Python source: `euclid.Vector2` becomes a record
of two reals, `Ellipse2D` becomes a record of its mutable attributes, methods
become functions from the old record to the new one, and operations that can
raise a Python exception return `Except`.  The `ObstacleList2D` mapping is
embedded as an insertion-ordered association list, matching the insertion
order semantics of a CPython `dict`.
-/

/-- Embedding of `euclid.Vector2` (2D point with fields `x`, `y`). -/
structure Vector2 where
  x : ℝ
  y : ℝ

/-- Embedding of `carla.Rotation` restricted to the only field read, `yaw`. -/
structure Rotation where
  yaw : ℝ

/-- Embedding of a `carla.BoundingBox`-like observation: only the fields the
source reads (`extent.x`, `extent.y`, `location.x`, `location.y`,
`rotation.yaw`). -/
structure BoundingBox where
  extent : Vector2
  location : Vector2
  rotation : Rotation

/-- Python exceptions the embedded code can raise:
`NameError` (the source references `carla` although `import carla` is
commented out at module top level), `RuntimeError` (CPython raises
`dictionary changed size during iteration` when a dict shrinks while its
keys view is being iterated), and `TypeError` (explicit `raise TypeError`
in the source). -/
inductive PyError where
  | nameError
  | runtimeError
  | typeError
deriving DecidableEq

/-- Embedding of the mutable attribute state of `Ellipse2D`
(`self.a`, `self.b`, `self.center`, `self.theta`, `self.buffer`,
`self.BUFFER_FLAG`). -/
structure Ellipse2D where
  a : ℝ
  b : ℝ
  center : Vector2
  theta : ℝ
  buffer : ℝ
  BUFFER_FLAG : Bool

namespace Ellipse2D

/-- `Ellipse2D.__init__`: stores `a + buffer`, `b + buffer` and sets
`BUFFER_FLAG = True`. -/
noncomputable def init (a b : ℝ) (center : Vector2) (theta : ℝ) (buffer : ℝ) : Ellipse2D :=
  { a := a + buffer
    b := b + buffer
    center := center
    theta := theta
    buffer := buffer
    BUFFER_FLAG := true }

/-- `Ellipse2D.applyBuffer`.  The second component records whether
`warnings.warn` was called (`true` = warning emitted, call ignored). -/
noncomputable def applyBuffer (e : Ellipse2D) : Ellipse2D × Bool :=
  if e.BUFFER_FLAG = false then
    ({ e with a := e.a + e.buffer, b := e.b + e.buffer, BUFFER_FLAG := true }, false)
  else
    (e, true)

/-- `Ellipse2D.removeBuffer`.  The second component records whether
`warnings.warn` was called. -/
noncomputable def removeBuffer (e : Ellipse2D) : Ellipse2D × Bool :=
  if e.BUFFER_FLAG = true then
    ({ e with a := e.a - e.buffer, b := e.b - e.buffer, BUFFER_FLAG := false }, false)
  else
    (e, true)

/-- `Ellipse2D.evaluate(p)`:
`((dx*ct + dy*st)/a)**2 + ((-dx*st + dy*ct)/b)**2 - 1` with
`dx = p.x - center.x`, `dy = p.y - center.y`, `ct = cos(theta)`,
`st = sin(theta)`. -/
noncomputable def evaluate (e : Ellipse2D) (p : Vector2) : ℝ :=
  let dx := p.x - e.center.x
  let dy := p.y - e.center.y
  let ct := Real.cos e.theta
  let st := Real.sin e.theta
  ((dx * ct + dy * st) / e.a) ^ 2 + ((-dx * st + dy * ct) / e.b) ^ 2 - 1

/-- `Ellipse2D.f(p)`: alias of `evaluate`. -/
noncomputable def f (e : Ellipse2D) (p : Vector2) : ℝ :=
  e.evaluate p

/-- `Ellipse2D.dx(p)`. -/
noncomputable def dx (e : Ellipse2D) (p : Vector2) : ℝ :=
  let xd := p.x - e.center.x
  let yd := p.y - e.center.y
  let ct := Real.cos e.theta
  let st := Real.sin e.theta
  (2 * ct / e.a ^ 2) * (xd * ct + yd * st) + (-2 * st / e.b ^ 2) * (-xd * st + yd * ct)

/-- `Ellipse2D.dy(p)`. -/
noncomputable def dy (e : Ellipse2D) (p : Vector2) : ℝ :=
  let xd := p.x - e.center.x
  let yd := p.y - e.center.y
  let ct := Real.cos e.theta
  let st := Real.sin e.theta
  (2 * st / e.a ^ 2) * (xd * ct + yd * st) + (2 * ct / e.b ^ 2) * (-xd * st + yd * ct)

/-- `Ellipse2D.dtheta(p)`: delegates to `Obstacle2DBase.dtheta`, which
returns `0` after the type check on `p`. -/
def dtheta (_e : Ellipse2D) (_p : Vector2) : ℝ :=
  0

/-- `Ellipse2D.gradient(p)`: the column `matrix([dx(p), dy(p), dtheta(p)])`,
embedded as a real triple. -/
noncomputable def gradient (e : Ellipse2D) (p : Vector2) : ℝ × ℝ × ℝ :=
  (e.dx p, e.dy p, e.dtheta p)

/-- `Ellipse2D.update(a=None, b=None, center=None, theta=None, buffer=None)`:
each provided field is assigned in source order; a provided `buffer` either
re-bases `a`, `b` from the old buffer to the new one (when `BUFFER_FLAG`)
or is merely recorded. -/
noncomputable def update (e : Ellipse2D) (a? b? : Option ℝ) (center? : Option Vector2)
    (theta? buffer? : Option ℝ) : Ellipse2D :=
  let e := match a? with | some a => { e with a := a } | none => e
  let e := match b? with | some b => { e with b := b } | none => e
  let e := match center? with | some c => { e with center := c } | none => e
  let e := match theta? with | some t => { e with theta := t } | none => e
  match buffer? with
  | some buf =>
      if e.BUFFER_FLAG then
        { e with a := e.a - e.buffer + buf, b := e.b - e.buffer + buf, buffer := buf }
      else
        { e with buffer := buf }
  | none => e

/-- `Ellipse2D.updateByBoundingBox(BBox)`: refresh `a`, `b`, `center`,
`theta` from the observation via `update` (the `buffer` argument is not
passed). -/
noncomputable def updateByBoundingBox (e : Ellipse2D) (bb : BoundingBox) : Ellipse2D :=
  e.update (some bb.extent.x) (some bb.extent.y)
    (some ⟨bb.location.x, bb.location.y⟩) (some bb.rotation.yaw) none

/-- `Ellipse2D.fromBoundingBox(BBox, buffer=0.5)`.  Its first statement
evaluates `carla.BoundingBox`, but `import carla` is commented out in the
source module, so every call raises `NameError: name 'carla' is not defined`
before any ellipse is constructed. -/
def fromBoundingBox (_bb : BoundingBox) (_buffer : ℝ) : Except PyError Ellipse2D :=
  .error .nameError

end Ellipse2D

/-- Buffer bookkeeping invariant for an ellipse whose un-buffered semi-axes
are `ra`, `rb`: when `BUFFER_FLAG` is set the stored semi-axes carry the
buffer exactly once, otherwise they are the bare axes. -/
def BufferInv (ra rb : ℝ) (e : Ellipse2D) : Prop :=
  (e.BUFFER_FLAG = true → e.a = ra + e.buffer ∧ e.b = rb + e.buffer) ∧
  (e.BUFFER_FLAG = false → e.a = ra ∧ e.b = rb)

/-- The point `center + R(theta) · (r·a·cos φ, r·b·sin φ)`: the scaled
boundary parametrization of an ellipse (`r = 1` is the boundary, `r < 1`
strictly inside, `r > 1` strictly outside). -/
noncomputable def Ellipse2D.pointAt (e : Ellipse2D) (r φ : ℝ) : Vector2 :=
  ⟨e.center.x + (r * e.a * Real.cos φ) * Real.cos e.theta
      - (r * e.b * Real.sin φ) * Real.sin e.theta,
    e.center.y + (r * e.a * Real.cos φ) * Real.sin e.theta
      + (r * e.b * Real.sin φ) * Real.cos e.theta⟩

/-- A Python value that can be offered to `ObstacleList2D.__setitem__`:
either an instance of a class deriving from `Obstacle2DBase` (the base
itself or the `Ellipse2D` subclass), or some unrelated value such as an
`int` or a `str`. -/
inductive PyObject where
  | ellipse (e : Ellipse2D)
  | baseObstacle
  | intVal (n : ℤ)
  | strVal (s : String)

/-- Embedding of the MRO test `Obstacle2DBase in value.__class__.__mro__`:
true exactly for instances of `Obstacle2DBase` or of a class derived
from it. -/
def derivesObstacle2DBase : PyObject → Bool
  | .ellipse _ => true
  | .baseObstacle => true
  | .intVal _ => false
  | .strVal _ => false

/-- The backing store `self.mapping` of `ObstacleList2D`: an
insertion-ordered association list with the key semantics of a CPython
`dict` (assigning an existing key keeps its position, a new key is
appended at the end). -/
def PyDict (α : Type) : Type :=
  List (Nat × α)

namespace PyDict

/-- `self.mapping[key]` lookup (`None` when the key is absent). -/
def lookup {α : Type} : PyDict α → Nat → Option α
  | [], _ => none
  | (k, v) :: rest, key => if k = key then some v else lookup rest key

/-- `self.mapping[key] = value`: overwrite in place when the key exists
(keeping insertion order), append otherwise. -/
def setKey {α : Type} : PyDict α → Nat → α → PyDict α
  | [], key, value => [(key, value)]
  | (k, v) :: rest, key, value =>
      if k = key then (key, value) :: rest else (k, v) :: setKey rest key value

/-- `del self.mapping[key]`. -/
def delKey {α : Type} : PyDict α → Nat → PyDict α
  | [], _ => []
  | (k, v) :: rest, key => if k = key then rest else (k, v) :: delKey rest key

/-- `key in d.keys()`. -/
def hasKey {α : Type} (d : PyDict α) (key : Nat) : Bool :=
  (d.map Prod.fst).contains key

/-- `list(d.keys())`. -/
def keys {α : Type} (d : PyDict α) : List Nat :=
  d.map Prod.fst

end PyDict

/-- Object selector `ELLIPSE2D = 0` from the source module. -/
def ELLIPSE2D : ℕ := 0

namespace ObstacleList2D

/-- `ObstacleList2D.__setitem__(key, value)` with the collection state
threaded explicitly: the result pairs the (possibly updated) mapping with
the exception raised, if any.  A value whose MRO lacks `Obstacle2DBase`
raises `TypeError` and leaves the mapping untouched. -/
def setitem (m : PyDict PyObject) (key : Nat) (value : PyObject) :
    PyDict PyObject × Option PyError :=
  if derivesObstacle2DBase value then
    (m.setKey key value, none)
  else
    (m, some .typeError)

/-- The first loop of `ObstacleList2D.updateByBoundingBox`: for each
`(key, bbox)` of `obs_dict` in order, update the stored obstacle in place
when the key is present, otherwise (for the `ELLIPSE2D` selector) build a
new ellipse with `Ellipse2D.fromBoundingBox` and insert it.  Since
`fromBoundingBox` raises `NameError` (missing `carla` import), any
insertion aborts the loop with that exception, returning the partially
updated mapping. -/
noncomputable def updatePass (obs_type : ℕ) (buffer : ℝ) :
    List (Nat × BoundingBox) → PyDict Ellipse2D →
    Except (PyError × PyDict Ellipse2D) (PyDict Ellipse2D)
  | [], m => .ok m
  | (key, bbox) :: rest, m =>
      match m.lookup key with
      | some e => updatePass obs_type buffer rest (m.setKey key (e.updateByBoundingBox bbox))
      | none =>
          if obs_type = ELLIPSE2D then
            match Ellipse2D.fromBoundingBox bbox buffer with
            | .error err => .error (err, m)
            | .ok value => updatePass obs_type buffer rest (m.setKey key value)
          else
            updatePass obs_type buffer rest m

/-- The second loop of `ObstacleList2D.updateByBoundingBox`:
`for key in self.mapping.keys(): if key not in obs_dict.keys(): self.pop(key)`.
The loop iterates the live keys view of `self.mapping`; after the first
`pop` shrinks the dict, the next step of the iterator raises
`RuntimeError: dictionary changed size during iteration`.  Hence the first
key (in insertion order) absent from the observations is removed and the
`RuntimeError` propagates with that partially mutated mapping; the loop
completes normally only when no key needs removal. -/
def removalPass (m : PyDict Ellipse2D) (obsKeys : List Nat) :
    Except (PyError × PyDict Ellipse2D) (PyDict Ellipse2D) :=
  match m.find? (fun kv => !(obsKeys.contains kv.1)) with
  | none => .ok m
  | some (k, _) => .error (.runtimeError, m.delKey k)

/-- `ObstacleList2D.updateByBoundingBox(obs_dict=None, obs_type=ELLIPSE2D,
buffer=0.5)`.  `obs_dict is None` skips both loops; otherwise the update
pass over all observations runs first, then the removal pass over the
mapping's keys. -/
noncomputable def updateByBoundingBox (m : PyDict Ellipse2D)
    (obs_dict : Option (List (Nat × BoundingBox)))
    (obs_type : ℕ := ELLIPSE2D) (buffer : ℝ := 0.5) :
    Except (PyError × PyDict Ellipse2D) (PyDict Ellipse2D) :=
  match obs_dict with
  | none => .ok m
  | some obs =>
      match updatePass obs_type buffer obs m with
      | .error e => .error e
      | .ok m' => removalPass m' (obs.map Prod.fst)

/-- The shared loop shape of the batch methods of `ObstacleList2D`:
`idx = 0; for obs in self.mapping.values(): out[idx] = g(obs); idx += 1`,
writing into a pre-allocated column of zeros. -/
def fillLoop {β : Type} (g : Ellipse2D → β) :
    List Ellipse2D → List β → ℕ → List β
  | [], out, _ => out
  | e :: rest, out, idx => fillLoop g rest (out.set idx (g e)) (idx + 1)

/-- `ObstacleList2D.f(p)`: column vector `matrix(0.0, (len, 1))` filled
with each obstacle's `f(p)` in iteration order. -/
noncomputable def f (m : PyDict Ellipse2D) (p : Vector2) : List ℝ :=
  fillLoop (fun e => e.f p) (m.map Prod.snd) (List.replicate m.length 0) 0

/-- `ObstacleList2D.dx(p)`. -/
noncomputable def dx (m : PyDict Ellipse2D) (p : Vector2) : List ℝ :=
  fillLoop (fun e => e.dx p) (m.map Prod.snd) (List.replicate m.length 0) 0

/-- `ObstacleList2D.dy(p)`. -/
noncomputable def dy (m : PyDict Ellipse2D) (p : Vector2) : List ℝ :=
  fillLoop (fun e => e.dy p) (m.map Prod.snd) (List.replicate m.length 0) 0

/-- `ObstacleList2D.dtheta(p)`. -/
noncomputable def dtheta (m : PyDict Ellipse2D) (p : Vector2) : List ℝ :=
  fillLoop (fun e => e.dtheta p) (m.map Prod.snd) (List.replicate m.length 0) 0

/-- `ObstacleList2D.gradient(p)`: an `n × 3` matrix as a list of rows,
row `idx` being `obs.gradient(p).T`. -/
noncomputable def gradient (m : PyDict Ellipse2D) (p : Vector2) : List (ℝ × ℝ × ℝ) :=
  fillLoop (fun e => e.gradient p) (m.map Prod.snd) (List.replicate m.length (0, 0, 0)) 0

end ObstacleList2D

/-- Looking up the key just assigned yields the assigned value. -/
theorem PyDict.lookup_setKey {α : Type} :
    ∀ (m : PyDict α) (k : Nat) (v : α), (m.setKey k v).lookup k = some v := by
  intro m k v
  induction m with
  | nil => simp [PyDict.setKey, PyDict.lookup]
  | cons hd tl ih =>
      obtain ⟨k', v'⟩ := hd
      by_cases h : k' = k
      · simp [PyDict.setKey, PyDict.lookup, h]
      · simp [PyDict.setKey, PyDict.lookup, h, ih]

/-- C1: in the reconcile scenario of the spec (collection with IDs `{1, 2}`,
observations with IDs `{2, 3}`) the call is claimed to complete with ID 1
removed, ID 2 updated in place, ID 3 inserted and key set `{2, 3}`.  The
code instead updates ID 2 in place and then raises `NameError` while
constructing the obstacle for the new ID 3, because the module's
`import carla` is commented out while `Ellipse2D.fromBoundingBox` still
checks `isinstance(BBox, carla.BoundingBox)`; ID 1 is never removed and
ID 3 never inserted.  (Even with `carla` importable, the removal loop pops
from `self.mapping` while iterating its keys view, which raises
`RuntimeError: dictionary changed size during iteration`.) -/
theorem reconcile_scenario_raises_nameError :
    ObstacleList2D.updateByBoundingBox
        [(1, ⟨1, 1, ⟨5, 5⟩, 0, 0, true⟩), (2, ⟨1, 2, ⟨8, 8⟩, 0, 0, true⟩)]
        (some [(2, ⟨⟨2, 1⟩, ⟨9, 9⟩, ⟨0⟩⟩), (3, ⟨⟨1, 1⟩, ⟨4, 4⟩, ⟨0⟩⟩)]) =
      .error (.nameError,
        [(1, ⟨1, 1, ⟨5, 5⟩, 0, 0, true⟩),
         (2, Ellipse2D.updateByBoundingBox ⟨1, 2, ⟨8, 8⟩, 0, 0, true⟩ ⟨⟨2, 1⟩, ⟨9, 9⟩, ⟨0⟩⟩)]) :=
  rfl

/-- C6: `update` called with only a new buffer value: when the buffer is
currently applied, `a` and `b` are re-based from the old buffer to the new
one (leaving the effective un-buffered shape `a - buffer` unchanged) and
the stored buffer becomes the new value; when not applied, only the stored
buffer changes.  Center, theta and the flag are untouched either way. -/
theorem update_buffer_rule (e : Ellipse2D) (buf : ℝ) :
    (e.update none none none none (some buf)).center = e.center ∧
    (e.update none none none none (some buf)).theta = e.theta ∧
    (e.update none none none none (some buf)).BUFFER_FLAG = e.BUFFER_FLAG ∧
    (e.update none none none none (some buf)).buffer = buf ∧
    (if e.BUFFER_FLAG then
        (e.update none none none none (some buf)).a = e.a - e.buffer + buf ∧
        (e.update none none none none (some buf)).b = e.b - e.buffer + buf ∧
        (e.update none none none none (some buf)).a - (e.update none none none none (some buf)).buffer
          = e.a - e.buffer
      else
        (e.update none none none none (some buf)).a = e.a ∧
        (e.update none none none none (some buf)).b = e.b) := by
  cases h : e.BUFFER_FLAG <;> simp [Ellipse2D.update, h]

/-- C7: `dtheta` returns `0` for every ellipse and every point, and hence
the third entry of `gradient(p) = [dx, dy, dtheta]` is always `0`. -/
theorem dtheta_always_zero (e : Ellipse2D) (p : Vector2) :
    e.dtheta p = 0 ∧ (e.gradient p).2.2 = 0 :=
  ⟨rfl, rfl⟩

/-- C8: `applyBuffer` when the buffer is already applied, and `removeBuffer`
when it is already removed, are warning-emitting no-ops (state returned
unchanged, warning component `true`); in particular the second of two
consecutive `applyBuffer` calls is always such a no-op. -/
theorem buffer_toggle_guarded_noop (e : Ellipse2D) :
    (e.BUFFER_FLAG = true → e.applyBuffer = (e, true)) ∧
    (e.BUFFER_FLAG = false → e.removeBuffer = (e, true)) ∧
    (e.applyBuffer.1.applyBuffer = (e.applyBuffer.1, true)) := by
  refine ⟨fun h => ?_, fun h => ?_, ?_⟩
  · simp [Ellipse2D.applyBuffer, h]
  · simp [Ellipse2D.removeBuffer, h]
  · cases h : e.BUFFER_FLAG <;> simp [Ellipse2D.applyBuffer, h]

/-- Witness for C8 at concrete ellipses (one with the buffer applied, one
with it removed). -/
theorem buffer_toggle_guarded_noop_witness :
    Ellipse2D.applyBuffer ⟨3, 2, ⟨0, 0⟩, 0, 1, true⟩ = (⟨3, 2, ⟨0, 0⟩, 0, 1, true⟩, true) ∧
    Ellipse2D.removeBuffer ⟨3, 2, ⟨0, 0⟩, 0, 1, false⟩ = (⟨3, 2, ⟨0, 0⟩, 0, 1, false⟩, true) :=
  ⟨(buffer_toggle_guarded_noop ⟨3, 2, ⟨0, 0⟩, 0, 1, true⟩).1 rfl,
   (buffer_toggle_guarded_noop ⟨3, 2, ⟨0, 0⟩, 0, 1, false⟩).2.1 rfl⟩

/-- C9: `__setitem__` with a value whose MRO lacks `Obstacle2DBase` raises
`TypeError` and leaves the mapping exactly as it was; with an
`Obstacle2DBase`-derived value it succeeds and stores the value under the
key. -/
theorem setitem_typecheck (m : PyDict PyObject) (k : Nat) (v : PyObject) :
    (derivesObstacle2DBase v = false →
      ObstacleList2D.setitem m k v = (m, some .typeError)) ∧
    (derivesObstacle2DBase v = true →
      ObstacleList2D.setitem m k v = (m.setKey k v, none) ∧
      (m.setKey k v).lookup k = some v) := by
  refine ⟨fun h => ?_, fun h => ?_⟩
  · simp [ObstacleList2D.setitem, h]
  · exact ⟨by simp [ObstacleList2D.setitem, h], PyDict.lookup_setKey m k v⟩

/-- Witness for C9: inserting the Python int `5` into a one-entry collection
fails with `TypeError` and leaves it unchanged; inserting an ellipse
succeeds. -/
theorem setitem_typecheck_witness :
    ObstacleList2D.setitem [(1, .baseObstacle)] 2 (.intVal 5)
      = ([(1, .baseObstacle)], some .typeError) ∧
    ObstacleList2D.setitem [(1, .baseObstacle)] 2 (.ellipse ⟨1, 1, ⟨0, 0⟩, 0, 0, true⟩)
      = ([(1, .baseObstacle), (2, .ellipse ⟨1, 1, ⟨0, 0⟩, 0, 0, true⟩)], none) :=
  ⟨(setitem_typecheck [(1, .baseObstacle)] 2 (.intVal 5)).1 rfl,
   ((setitem_typecheck [(1, .baseObstacle)] 2 (.ellipse ⟨1, 1, ⟨0, 0⟩, 0, 0, true⟩)).2 rfl).1⟩

/-- C10 (amended): `updateByBoundingBox` with `obs_dict = None` leaves the
collection unchanged and completes normally; with an *empty* observation
mapping and a non-empty collection it does not delete every obstacle and
complete — it removes the first obstacle and then raises `RuntimeError`
because the removal loop pops from the dict while iterating its keys
view. -/
theorem none_obs_noop_amended (m : PyDict Ellipse2D) (k : Nat) (e : Ellipse2D)
    (rest : PyDict Ellipse2D) :
    ObstacleList2D.updateByBoundingBox m none = .ok m ∧
    ObstacleList2D.updateByBoundingBox ((k, e) :: rest) (some []) =
      .error (.runtimeError, rest) := by
  refine ⟨rfl, ?_⟩
  simp [ObstacleList2D.updateByBoundingBox, ObstacleList2D.updatePass,
    ObstacleList2D.removalPass, List.find?, PyDict.delKey]

/-- Witness for C10's amended statement at a concrete collection. -/
theorem none_obs_noop_amended_witness :
    ObstacleList2D.updateByBoundingBox
        [(7, ⟨1, 1, ⟨0, 0⟩, 0, 0, true⟩)] none = .ok [(7, ⟨1, 1, ⟨0, 0⟩, 0, 0, true⟩)] ∧
    ObstacleList2D.updateByBoundingBox
        [(7, ⟨1, 1, ⟨0, 0⟩, 0, 0, true⟩)] (some []) = .error (.runtimeError, []) :=
  ⟨(none_obs_noop_amended [(7, ⟨1, 1, ⟨0, 0⟩, 0, 0, true⟩)] 7 ⟨1, 1, ⟨0, 0⟩, 0, 0, true⟩ []).1,
   (none_obs_noop_amended [(7, ⟨1, 1, ⟨0, 0⟩, 0, 0, true⟩)] 7 ⟨1, 1, ⟨0, 0⟩, 0, 0, true⟩ []).2⟩

/-- C10 counterexample: with a two-obstacle collection and an empty
observation mapping, the call does not complete with every obstacle
deleted — it raises `RuntimeError` after removing only the first
obstacle, leaving the second in the partial state. -/
theorem none_vs_empty_obs_cex :
    ObstacleList2D.updateByBoundingBox
        [(1, ⟨1, 1, ⟨5, 5⟩, 0, 0, true⟩), (2, ⟨1, 2, ⟨8, 8⟩, 0, 0, true⟩)] (some []) =
      .error (.runtimeError, [(2, ⟨1, 2, ⟨8, 8⟩, 0, 0, true⟩)]) ∧
    ObstacleList2D.updateByBoundingBox
        [(1, ⟨1, 1, ⟨5, 5⟩, 0, 0, true⟩), (2, ⟨1, 2, ⟨8, 8⟩, 0, 0, true⟩)] (some []) ≠
      .ok [] := by
  have h1 : ObstacleList2D.updateByBoundingBox
      [(1, ⟨1, 1, ⟨5, 5⟩, 0, 0, true⟩), (2, ⟨1, 2, ⟨8, 8⟩, 0, 0, true⟩)] (some []) =
      .error (.runtimeError, [(2, ⟨1, 2, ⟨8, 8⟩, 0, 0, true⟩)]) := rfl
  refine ⟨h1, ?_⟩
  rw [h1]
  exact fun h => Except.noConfusion h

/-- C5 counterexample: an ellipse built by the constructor from raw
semi-axes `(1, 1)` with buffer `1/2` satisfies the buffer invariant with
respect to those raw axes (`a = 1 + 1/2`, flag set).  Refreshing it with
an observation of those same raw extents via `updateByBoundingBox`
(`updateFromObservation`) leaves `BUFFER_FLAG` set and `buffer = 1/2`, yet
stores `a = 1` — the buffer is now included zero times, so the invariant
no longer holds. -/
theorem bufferInv_broken_by_observation_cex :
    BufferInv 1 1 (Ellipse2D.init 1 1 ⟨0, 0⟩ 0 (1/2)) ∧
    ((Ellipse2D.init 1 1 ⟨0, 0⟩ 0 (1/2)).updateByBoundingBox ⟨⟨1, 1⟩, ⟨0, 0⟩, ⟨0⟩⟩).BUFFER_FLAG
      = true ∧
    ((Ellipse2D.init 1 1 ⟨0, 0⟩ 0 (1/2)).updateByBoundingBox ⟨⟨1, 1⟩, ⟨0, 0⟩, ⟨0⟩⟩).buffer
      = 1/2 ∧
    ¬ BufferInv 1 1 ((Ellipse2D.init 1 1 ⟨0, 0⟩ 0 (1/2)).updateByBoundingBox
        ⟨⟨1, 1⟩, ⟨0, 0⟩, ⟨0⟩⟩) := by
  refine ⟨⟨fun _ => ⟨rfl, rfl⟩, fun h => by simp [Ellipse2D.init] at h⟩, rfl, rfl, fun hinv => ?_⟩
  have ha := (hinv.1 rfl).1
  simp [Ellipse2D.init, Ellipse2D.updateByBoundingBox, Ellipse2D.update] at ha

/-- C5 (amended): the buffer invariant `BufferInv` holds after construction
(with respect to the constructor's raw semi-axes) and is preserved by
`applyBuffer`, `removeBuffer`, and `update` with a new buffer value; it is
NOT preserved by `updateByBoundingBox` (`updateFromObservation`), which
overwrites `a`, `b` with the observation's raw extents without re-adding
the buffer while leaving `BUFFER_FLAG` set. -/
theorem bufferInv_preserved_amended (a b : ℝ) (c : Vector2) (θ buf : ℝ)
    (ra rb v : ℝ) (e : Ellipse2D) (bb : BoundingBox) (hinv : BufferInv ra rb e) :
    BufferInv a b (Ellipse2D.init a b c θ buf) ∧
    BufferInv ra rb e.applyBuffer.1 ∧
    BufferInv ra rb e.removeBuffer.1 ∧
    BufferInv ra rb (e.update none none none none (some v)) ∧
    (e.updateByBoundingBox bb).a = bb.extent.x ∧
    (e.updateByBoundingBox bb).b = bb.extent.y ∧
    (e.updateByBoundingBox bb).buffer = e.buffer ∧
    (e.updateByBoundingBox bb).BUFFER_FLAG = e.BUFFER_FLAG := by
  obtain ⟨h1, h2⟩ := hinv
  refine ⟨⟨fun _ => ⟨rfl, rfl⟩, fun h => by simp [Ellipse2D.init] at h⟩, ?_, ?_, ?_, ?_, ?_, ?_, ?_⟩
  · cases hf : e.BUFFER_FLAG
    · obtain ⟨hra, hrb⟩ := h2 hf
      exact ⟨fun _ => by simp [Ellipse2D.applyBuffer, hf, hra, hrb],
             fun h => by simp [Ellipse2D.applyBuffer, hf] at h⟩
    · obtain ⟨hra, hrb⟩ := h1 hf
      exact ⟨fun _ => by simp [Ellipse2D.applyBuffer, hf, hra, hrb],
             fun h => by simp [Ellipse2D.applyBuffer, hf] at h⟩
  · cases hf : e.BUFFER_FLAG
    · obtain ⟨hra, hrb⟩ := h2 hf
      exact ⟨fun h => by simp [Ellipse2D.removeBuffer, hf] at h,
             fun _ => by simp [Ellipse2D.removeBuffer, hf, hra, hrb]⟩
    · obtain ⟨hra, hrb⟩ := h1 hf
      exact ⟨fun h => by simp [Ellipse2D.removeBuffer, hf] at h,
             fun _ => by simp [Ellipse2D.removeBuffer, hf, hra, hrb]⟩
  · cases hf : e.BUFFER_FLAG
    · obtain ⟨hra, hrb⟩ := h2 hf
      exact ⟨fun h => by simp [Ellipse2D.update, hf] at h,
             fun _ => by simp [Ellipse2D.update, hf, hra, hrb]⟩
    · obtain ⟨hra, hrb⟩ := h1 hf
      exact ⟨fun _ => by simp [Ellipse2D.update, hf, hra, hrb],
             fun h => by simp [Ellipse2D.update, hf] at h⟩
  · simp [Ellipse2D.updateByBoundingBox, Ellipse2D.update]
  · simp [Ellipse2D.updateByBoundingBox, Ellipse2D.update]
  · simp [Ellipse2D.updateByBoundingBox, Ellipse2D.update]
  · simp [Ellipse2D.updateByBoundingBox, Ellipse2D.update]

/-- Witness for C5's amended statement at a concrete buffered ellipse. -/
theorem bufferInv_preserved_amended_witness :
    BufferInv 2 3 (Ellipse2D.init 2 3 ⟨0, 0⟩ 0 1) ∧
    BufferInv 4 5 (Ellipse2D.applyBuffer ⟨5, 6, ⟨0, 0⟩, 0, 1, true⟩).1 ∧
    BufferInv 4 5 (Ellipse2D.removeBuffer ⟨5, 6, ⟨0, 0⟩, 0, 1, true⟩).1 := by
  have h := bufferInv_preserved_amended 2 3 ⟨0, 0⟩ 0 1 4 5 7
      ⟨5, 6, ⟨0, 0⟩, 0, 1, true⟩ ⟨⟨1, 1⟩, ⟨0, 0⟩, ⟨0⟩⟩
      ⟨fun _ => by norm_num, fun h => by simp at h⟩
  exact ⟨h.1, h.2.1, h.2.2.1⟩

/-- The write loop of the batch methods leaves the output length
unchanged. -/
theorem ObstacleList2D.fillLoop_length {β : Type} (g : Ellipse2D → β) :
    ∀ (vals : List Ellipse2D) (out : List β) (idx : ℕ),
      (ObstacleList2D.fillLoop g vals out idx).length = out.length := by
  intro vals
  induction vals with
  | nil => intro out idx; rfl
  | cons v vs ih =>
      intro out idx
      rw [show ObstacleList2D.fillLoop g (v :: vs) out idx
            = ObstacleList2D.fillLoop g vs (out.set idx (g v)) (idx + 1) from rfl]
      rw [ih, List.length_set]

/-- Entry-level description of the write loop of the batch methods: when
the output buffer is long enough, positions `idx ≤ j < idx + vals.length`
receive `g` of the corresponding value and all other positions keep their
previous content. -/
theorem ObstacleList2D.fillLoop_getElem? {β : Type} (g : Ellipse2D → β) :
    ∀ (vals : List Ellipse2D) (out : List β) (idx j : ℕ),
      idx + vals.length ≤ out.length →
      (ObstacleList2D.fillLoop g vals out idx)[j]? =
        if idx ≤ j ∧ j < idx + vals.length then (vals[j - idx]?).map g else out[j]? := by
  intro vals
  induction vals with
  | nil =>
      intro out idx j _
      have hcond : ¬(idx ≤ j ∧ j < idx + ([] : List Ellipse2D).length) := by
        simp only [List.length_nil, Nat.add_zero]
        omega
      rw [if_neg hcond]
      rfl
  | cons v vs ih =>
      intro out idx j hlen
      simp only [List.length_cons] at hlen ⊢
      have hlen' : (idx + 1) + vs.length ≤ (out.set idx (g v)).length := by
        rw [List.length_set]
        omega
      rw [show ObstacleList2D.fillLoop g (v :: vs) out idx
            = ObstacleList2D.fillLoop g vs (out.set idx (g v)) (idx + 1) from rfl]
      rw [ih (out.set idx (g v)) (idx + 1) j hlen']
      by_cases hj1 : j < idx
      · rw [if_neg (by omega), if_neg (by omega)]
        exact List.getElem?_set_ne (by omega)
      · by_cases hj2 : j = idx
        · subst hj2
          rw [if_neg (by omega), if_pos ⟨Nat.le_refl j, by omega⟩]
          rw [List.getElem?_set_self (by omega), Nat.sub_self]
          simp
        · by_cases hj4 : j < idx + (vs.length + 1)
          · rw [if_pos ⟨by omega, by omega⟩, if_pos ⟨by omega, by omega⟩]
            have hsub : j - idx = (j - (idx + 1)) + 1 := by omega
            rw [hsub, List.getElem?_cons_succ]
          · rw [if_neg (by omega), if_neg (by omega)]
            exact List.getElem?_set_ne (by omega)

/-- C2: each batch method of `ObstacleList2D` produces a column of length
`n = len(mapping)` whose `i`-th entry is the corresponding scalar method
of the `i`-th obstacle (in iteration order) at `p`, and `gradient`
produces an `n × 3` matrix whose `i`-th row is
`[dx_i(p), dy_i(p), dtheta_i(p)]`; hence row `i` of the gradient matrix
corresponds to entry `i` of the value vector. -/
theorem batch_methods_align (m : PyDict Ellipse2D) (p : Vector2) (i : ℕ)
    (hi : i < m.length) :
    (ObstacleList2D.f m p).length = m.length ∧
    (ObstacleList2D.gradient m p).length = m.length ∧
    (ObstacleList2D.f m p)[i]? = some ((m.get ⟨i, hi⟩).2.f p) ∧
    (ObstacleList2D.dx m p)[i]? = some ((m.get ⟨i, hi⟩).2.dx p) ∧
    (ObstacleList2D.dy m p)[i]? = some ((m.get ⟨i, hi⟩).2.dy p) ∧
    (ObstacleList2D.dtheta m p)[i]? = some ((m.get ⟨i, hi⟩).2.dtheta p) ∧
    (ObstacleList2D.gradient m p)[i]? =
      some ((m.get ⟨i, hi⟩).2.dx p, (m.get ⟨i, hi⟩).2.dy p, (m.get ⟨i, hi⟩).2.dtheta p) := by
  have hlen : ∀ (β : Type) (z : β), (List.replicate m.length z).length = m.length :=
    fun β z => List.length_replicate m.length z
  have hmap : (m.map Prod.snd).length = m.length := List.length_map m Prod.snd
  have hget : ∀ (j : ℕ) (hj : j < m.length), (m.map Prod.snd)[j]? = some (m.get ⟨j, hj⟩).2 := by
    intro j hj
    rw [List.getElem?_map, List.getElem?_eq_getElem hj]
    rfl
  have happ : ∀ (β : Type) (g : Ellipse2D → β) (z : β),
      (ObstacleList2D.fillLoop g (m.map Prod.snd) (List.replicate m.length z) 0)[i]? =
        some (g (m.get ⟨i, hi⟩).2) := by
    intro β g z
    rw [ObstacleList2D.fillLoop_getElem? g (m.map Prod.snd) (List.replicate m.length z) 0 i
        (by rw [hlen, hmap]; omega)]
    rw [if_pos ⟨Nat.zero_le i, by rw [hmap]; omega⟩, Nat.sub_zero, hget i hi]
    rfl
  refine ⟨?_, ?_, happ ℝ (fun e => e.f p) 0, happ ℝ (fun e => e.dx p) 0,
      happ ℝ (fun e => e.dy p) 0, happ ℝ (fun e => e.dtheta p) 0,
      happ (ℝ × ℝ × ℝ) (fun e => e.gradient p) (0, 0, 0)⟩
  · rw [ObstacleList2D.f, ObstacleList2D.fillLoop_length, hlen]
  · rw [ObstacleList2D.gradient, ObstacleList2D.fillLoop_length, hlen]

/-- Witness for C2 at a concrete two-obstacle collection and `i = 1`. -/
theorem batch_methods_align_witness :
    (ObstacleList2D.f [(1, ⟨1, 1, ⟨5, 5⟩, 0, 0, true⟩), (2, ⟨1, 2, ⟨8, 8⟩, 0, 0, true⟩)] ⟨0, 0⟩)[1]?
      = some (Ellipse2D.f ⟨1, 2, ⟨8, 8⟩, 0, 0, true⟩ ⟨0, 0⟩) ∧
    (ObstacleList2D.gradient
        [(1, ⟨1, 1, ⟨5, 5⟩, 0, 0, true⟩), (2, ⟨1, 2, ⟨8, 8⟩, 0, 0, true⟩)] ⟨0, 0⟩)[1]?
      = some (Ellipse2D.dx ⟨1, 2, ⟨8, 8⟩, 0, 0, true⟩ ⟨0, 0⟩,
          Ellipse2D.dy ⟨1, 2, ⟨8, 8⟩, 0, 0, true⟩ ⟨0, 0⟩,
          Ellipse2D.dtheta ⟨1, 2, ⟨8, 8⟩, 0, 0, true⟩ ⟨0, 0⟩) := by
  have h := batch_methods_align
      [(1, ⟨1, 1, ⟨5, 5⟩, 0, 0, true⟩), (2, ⟨1, 2, ⟨8, 8⟩, 0, 0, true⟩)] ⟨0, 0⟩ 1 (by simp)
  exact ⟨h.2.2.1, h.2.2.2.2.2.2⟩

/-- C3: `evaluate(p)` and its alias `f(p)` both return the quadratic-form
expression of the source, and on the parametrized family
`pointAt r φ = center + R(theta)·(r·a·cos φ, r·b·sin φ)` the value is
`r² - 1`: negative strictly inside (`r < 1`), zero on the boundary
(`r = 1`), positive strictly outside (`r > 1`). -/
theorem ellipse_eval_formula_and_sign (e : Ellipse2D) (p : Vector2) (r φ : ℝ)
    (ha : 0 < e.a) (hb : 0 < e.b) (hr : 0 ≤ r) :
    e.evaluate p =
      (((p.x - e.center.x) * Real.cos e.theta + (p.y - e.center.y) * Real.sin e.theta) / e.a) ^ 2
        + ((-(p.x - e.center.x) * Real.sin e.theta + (p.y - e.center.y) * Real.cos e.theta) / e.b) ^ 2
        - 1 ∧
    e.f p = e.evaluate p ∧
    e.evaluate (e.pointAt r φ) = r ^ 2 - 1 ∧
    (r < 1 → e.evaluate (e.pointAt r φ) < 0) ∧
    (r = 1 → e.evaluate (e.pointAt r φ) = 0) ∧
    (1 < r → 0 < e.evaluate (e.pointAt r φ)) := by
  have ha' : e.a ≠ 0 := ne_of_gt ha
  have hb' : e.b ≠ 0 := ne_of_gt hb
  have hθ := Real.sin_sq_add_cos_sq e.theta
  have hφ := Real.sin_sq_add_cos_sq φ
  have hu : ((e.pointAt r φ).x - e.center.x) * Real.cos e.theta
      + ((e.pointAt r φ).y - e.center.y) * Real.sin e.theta = r * e.a * Real.cos φ := by
    simp only [Ellipse2D.pointAt]
    linear_combination (r * e.a * Real.cos φ) * hθ
  have hv : -((e.pointAt r φ).x - e.center.x) * Real.sin e.theta
      + ((e.pointAt r φ).y - e.center.y) * Real.cos e.theta = r * e.b * Real.sin φ := by
    simp only [Ellipse2D.pointAt]
    linear_combination (r * e.b * Real.sin φ) * hθ
  have key : e.evaluate (e.pointAt r φ) = r ^ 2 - 1 := by
    simp only [Ellipse2D.evaluate]
    rw [hu, hv]
    have e1 : r * e.a * Real.cos φ / e.a = r * Real.cos φ := by
      field_simp
      ring
    have e2 : r * e.b * Real.sin φ / e.b = r * Real.sin φ := by
      field_simp
      ring
    rw [e1, e2]
    linear_combination r ^ 2 * hφ
  refine ⟨rfl, rfl, key, fun h1 => ?_, fun h1 => ?_, fun h1 => ?_⟩
  · rw [key]
    nlinarith
  · rw [key, h1]
    norm_num
  · rw [key]
    nlinarith

/-- Witness for C3 at the concrete ellipse `a = 2, b = 1` and the interior
parameter `r = 1/2`. -/
theorem ellipse_eval_formula_and_sign_witness :
    Ellipse2D.evaluate ⟨2, 1, ⟨0, 0⟩, 0, 0, true⟩
        (Ellipse2D.pointAt ⟨2, 1, ⟨0, 0⟩, 0, 0, true⟩ (1/2) 0) = (1/2 : ℝ) ^ 2 - 1 ∧
    Ellipse2D.evaluate ⟨2, 1, ⟨0, 0⟩, 0, 0, true⟩
        (Ellipse2D.pointAt ⟨2, 1, ⟨0, 0⟩, 0, 0, true⟩ (1/2) 0) < 0 := by
  have h := ellipse_eval_formula_and_sign ⟨2, 1, ⟨0, 0⟩, 0, 0, true⟩ ⟨0, 0⟩ (1/2) 0
      (by norm_num) (by norm_num) (by norm_num)
  exact ⟨h.2.2.1, h.2.2.2.1 (by norm_num)⟩

/-- Derivative of the generic affine-in-`t` quadratic form underlying the
ellipse barrier value. -/
theorem hasDerivAt_quadratic_form (A B c1 c2 d1 d2 s : ℝ) :
    HasDerivAt (fun t : ℝ => ((t * c1 + d1) / A) ^ 2 + ((t * c2 + d2) / B) ^ 2 - 1)
      (2 * ((s * c1 + d1) / A) * (c1 / A) + 2 * ((s * c2 + d2) / B) * (c2 / B)) s := by
  have h1 := (((hasDerivAt_id s).mul_const c1).add_const d1).div_const A
  have h2 := (((hasDerivAt_id s).mul_const c2).add_const d2).div_const B
  have hsum := ((h1.pow 2).add (h2.pow 2)).sub_const 1
  convert hsum using 1
  push_cast
  simp only [id_eq, pow_one, one_mul]

/-- C4 counterexample: for the unit circle at the origin and the query
point `(1, 0)`, `dx` returns `2`, while the derivative of `f` with respect
to `center.x` is `-2`; so `dx` is not the partial derivative of `f` with
respect to `center.x` claimed by the spec. -/
theorem dx_not_center_partial_cex :
    Ellipse2D.dx ⟨1, 1, ⟨0, 0⟩, 0, 0, true⟩ ⟨1, 0⟩ = 2 ∧
    HasDerivAt (fun t : ℝ => Ellipse2D.evaluate ⟨1, 1, ⟨t, 0⟩, 0, 0, true⟩ ⟨1, 0⟩) (-2) 0 ∧
    ¬ HasDerivAt (fun t : ℝ => Ellipse2D.evaluate ⟨1, 1, ⟨t, 0⟩, 0, 0, true⟩ ⟨1, 0⟩)
        (Ellipse2D.dx ⟨1, 1, ⟨0, 0⟩, 0, 0, true⟩ ⟨1, 0⟩) 0 := by
  have hval : Ellipse2D.dx ⟨1, 1, ⟨0, 0⟩, 0, 0, true⟩ ⟨1, 0⟩ = 2 := by
    simp [Ellipse2D.dx]
  have hfun : (fun t : ℝ => Ellipse2D.evaluate ⟨1, 1, ⟨t, 0⟩, 0, 0, true⟩ ⟨1, 0⟩)
      = fun t : ℝ => (t * (-1) + 1) ^ 2 + (t * 0 + 0) ^ 2 - 1 := by
    funext t
    simp only [Ellipse2D.evaluate]
    norm_num
    ring
  have hd : HasDerivAt (fun t : ℝ => Ellipse2D.evaluate ⟨1, 1, ⟨t, 0⟩, 0, 0, true⟩ ⟨1, 0⟩)
      (-2) 0 := by
    rw [hfun]
    have h := hasDerivAt_quadratic_form 1 1 (-1) 0 1 0 0
    have hv : 2 * (((0 : ℝ) * (-1) + 1) / 1) * ((-1) / 1) + 2 * ((0 * 0 + 0) / 1) * (0 / 1)
        = (-2 : ℝ) := by norm_num
    rw [hv] at h
    convert h using 1
    funext t
    norm_num
  refine ⟨hval, hd, fun hcontra => ?_⟩
  have h2 := hcontra.unique hd
  rw [hval] at h2
  norm_num at h2

/-- C4 (amended): `dx(p)` and `dy(p)` return exactly the algebraic
expressions of the source, and these are the analytic partial derivatives
of `f` with respect to the query point's coordinates `p.x` and `p.y` —
equivalently, the NEGATIVES of the partial derivatives of `f` with respect
to `center.x` and `center.y` (the spec's attribution of the sign to the
center coordinates is reversed). -/
theorem dx_dy_exact_and_point_partials (e : Ellipse2D) (p : Vector2) :
    e.dx p = (2 * Real.cos e.theta / e.a ^ 2)
        * ((p.x - e.center.x) * Real.cos e.theta + (p.y - e.center.y) * Real.sin e.theta)
      + (-2 * Real.sin e.theta / e.b ^ 2)
        * (-(p.x - e.center.x) * Real.sin e.theta + (p.y - e.center.y) * Real.cos e.theta) ∧
    e.dy p = (2 * Real.sin e.theta / e.a ^ 2)
        * ((p.x - e.center.x) * Real.cos e.theta + (p.y - e.center.y) * Real.sin e.theta)
      + (2 * Real.cos e.theta / e.b ^ 2)
        * (-(p.x - e.center.x) * Real.sin e.theta + (p.y - e.center.y) * Real.cos e.theta) ∧
    HasDerivAt (fun t : ℝ => e.evaluate ⟨t, p.y⟩) (e.dx p) p.x ∧
    HasDerivAt (fun t : ℝ => e.evaluate ⟨p.x, t⟩) (e.dy p) p.y ∧
    HasDerivAt (fun t : ℝ =>
        Ellipse2D.evaluate ⟨e.a, e.b, ⟨t, e.center.y⟩, e.theta, e.buffer, e.BUFFER_FLAG⟩ p)
      (-e.dx p) e.center.x ∧
    HasDerivAt (fun t : ℝ =>
        Ellipse2D.evaluate ⟨e.a, e.b, ⟨e.center.x, t⟩, e.theta, e.buffer, e.BUFFER_FLAG⟩ p)
      (-e.dy p) e.center.y := by
  refine ⟨rfl, rfl, ?_, ?_, ?_, ?_⟩
  · have hfe : (fun t : ℝ => e.evaluate ⟨t, p.y⟩)
        = fun t : ℝ => ((t * Real.cos e.theta
            + ((p.y - e.center.y) * Real.sin e.theta - e.center.x * Real.cos e.theta)) / e.a) ^ 2
          + ((t * (-Real.sin e.theta)
            + (e.center.x * Real.sin e.theta + (p.y - e.center.y) * Real.cos e.theta)) / e.b) ^ 2
          - 1 := by
      funext t
      simp only [Ellipse2D.evaluate]
      ring
    rw [hfe]
    have h := hasDerivAt_quadratic_form e.a e.b (Real.cos e.theta) (-Real.sin e.theta)
        ((p.y - e.center.y) * Real.sin e.theta - e.center.x * Real.cos e.theta)
        (e.center.x * Real.sin e.theta + (p.y - e.center.y) * Real.cos e.theta) p.x
    convert h using 1
    simp only [Ellipse2D.dx]
    ring
  · have hfe : (fun t : ℝ => e.evaluate ⟨p.x, t⟩)
        = fun t : ℝ => ((t * Real.sin e.theta
            + ((p.x - e.center.x) * Real.cos e.theta - e.center.y * Real.sin e.theta)) / e.a) ^ 2
          + ((t * Real.cos e.theta
            + (-(p.x - e.center.x) * Real.sin e.theta - e.center.y * Real.cos e.theta)) / e.b) ^ 2
          - 1 := by
      funext t
      simp only [Ellipse2D.evaluate]
      ring
    rw [hfe]
    have h := hasDerivAt_quadratic_form e.a e.b (Real.sin e.theta) (Real.cos e.theta)
        ((p.x - e.center.x) * Real.cos e.theta - e.center.y * Real.sin e.theta)
        (-(p.x - e.center.x) * Real.sin e.theta - e.center.y * Real.cos e.theta) p.y
    convert h using 1
    simp only [Ellipse2D.dy]
    ring
  · have hfe : (fun t : ℝ =>
        Ellipse2D.evaluate ⟨e.a, e.b, ⟨t, e.center.y⟩, e.theta, e.buffer, e.BUFFER_FLAG⟩ p)
        = fun t : ℝ => ((t * (-Real.cos e.theta)
            + (p.x * Real.cos e.theta + (p.y - e.center.y) * Real.sin e.theta)) / e.a) ^ 2
          + ((t * Real.sin e.theta
            + (-p.x * Real.sin e.theta + (p.y - e.center.y) * Real.cos e.theta)) / e.b) ^ 2
          - 1 := by
      funext t
      simp only [Ellipse2D.evaluate]
      ring
    rw [hfe]
    have h := hasDerivAt_quadratic_form e.a e.b (-Real.cos e.theta) (Real.sin e.theta)
        (p.x * Real.cos e.theta + (p.y - e.center.y) * Real.sin e.theta)
        (-p.x * Real.sin e.theta + (p.y - e.center.y) * Real.cos e.theta) e.center.x
    convert h using 1
    simp only [Ellipse2D.dx]
    ring
  · have hfe : (fun t : ℝ =>
        Ellipse2D.evaluate ⟨e.a, e.b, ⟨e.center.x, t⟩, e.theta, e.buffer, e.BUFFER_FLAG⟩ p)
        = fun t : ℝ => ((t * (-Real.sin e.theta)
            + ((p.x - e.center.x) * Real.cos e.theta + p.y * Real.sin e.theta)) / e.a) ^ 2
          + ((t * (-Real.cos e.theta)
            + (-(p.x - e.center.x) * Real.sin e.theta + p.y * Real.cos e.theta)) / e.b) ^ 2
          - 1 := by
      funext t
      simp only [Ellipse2D.evaluate]
      ring
    rw [hfe]
    have h := hasDerivAt_quadratic_form e.a e.b (-Real.sin e.theta) (-Real.cos e.theta)
        ((p.x - e.center.x) * Real.cos e.theta + p.y * Real.sin e.theta)
        (-(p.x - e.center.x) * Real.sin e.theta + p.y * Real.cos e.theta) e.center.y
    convert h using 1
    simp only [Ellipse2D.dy]
    ring
